import Mathlib

/-!
Verification of the options-data backend (`backend/services/yfinance_service.py`
together with the route handlers in `backend/routes/stocks.py` and
`backend/routes/options.py`).

The service functions are shallowly embedded: the external market-data
provider's responses appear as explicit parameters (price histories as lists of
rationals, raw option rows as records, provider failures as `Except.error`
carrying the exception message).  Python floats are modelled by `ℚ`; Python
exceptions raised and caught inside the service are modelled by
`Except String`, and the distinction the route handlers make between
`ValueError` and every other exception is modelled by the `PyError` type.
-/

namespace ProfitCalc

/-- Equality of modelled call outcomes is decidable (used to evaluate the
embedded functions on concrete inputs). -/
instance {ε α : Type} [DecidableEq ε] [DecidableEq α] : DecidableEq (Except ε α) := fun a b =>
  match a, b with
  | .ok x, .ok y =>
    if h : x = y then .isTrue (by rw [h]) else .isFalse (by intro hc; cases hc; exact h rfl)
  | .error x, .error y =>
    if h : x = y then .isTrue (by rw [h]) else .isFalse (by intro hc; cases hc; exact h rfl)
  | .ok _, .error _ => .isFalse (by intro hc; cases hc)
  | .error _, .ok _ => .isFalse (by intro hc; cases hc)

/-- Python's `str.upper()` (over the characters of the string; extensionally
`String.toUpper`, spelled out over `.data` so that it evaluates by kernel
reduction). -/
def pyUpper (s : String) : String := ⟨s.data.map Char.toUpper⟩

/-- Python's `str.lower()`. -/
def pyLower (s : String) : String := ⟨s.data.map Char.toLower⟩

/-! ## Expiry classification (`get_expiry_dates`, lines 66-108) -/

/-- One entry of the list returned by `get_expiry_dates` (lines 97-102).
`day` of the parsed date and the computed `daysUntilExpiry` are the only parts
of `(expiry_date, today)` the classifier consults. -/
structure ExpiryEntry where
  date : String
  type : String
  daysUntilExpiry : Int
  isStandard : Bool
deriving Repr, DecidableEq

/-- The body of the per-date loop of `get_expiry_dates` (lines 86-102):
`day` is `expiry_date.day` (day of month of the parsed date string) and
`daysUntil` is `(expiry_date - today).days`.  Mirrors
`is_monthly = 15 <= day <= 21`, `is_leaps = days_until > 365`,
`expiry_type = "leaps" if is_leaps else ("monthly" if is_monthly else "weekly")`,
`isStandard = is_monthly`. -/
def classifyExpiry (dateStr : String) (day : Nat) (daysUntil : Int) : ExpiryEntry :=
  let is_monthly : Bool := decide (15 ≤ day) && decide (day ≤ 21)
  let is_leaps : Bool := decide (daysUntil > 365)
  let expiry_type := if is_leaps then "leaps" else (if is_monthly then "monthly" else "weekly")
  { date := dateStr
    type := expiry_type
    daysUntilExpiry := daysUntil
    isStandard := is_monthly }

/-- `get_expiry_dates` (lines 76-104) over the provider's date list; each raw
date is given as (string, day-of-month, days-until-expiry).  Raises (as
`ValueError`, line 81) when the provider lists no expiries. -/
def get_expiry_dates (symbol : String) (expiries : List (String × Nat × Int)) :
    Except String (List ExpiryEntry) :=
  if expiries.isEmpty then
    .error ("No options available for " ++ symbol)
  else
    .ok (expiries.map fun e => classifyExpiry e.1 e.2.1 e.2.2)

/-! ## Stock quote (`get_stock_quote`, lines 17-63) -/

/-- The quote payload built at lines 48-59 (timestamp omitted; the
volume/marketCap/52-week fields are raw provider passthroughs and kept only as
the fields the claims mention plus the passthrough previousClose). -/
structure Quote where
  symbol : String
  price : ℚ
  change : ℚ
  changePercent : ℚ
  previousClose : ℚ
deriving Repr, DecidableEq

/-- The `try`-body of `get_stock_quote` (lines 31-59).  `histClose` is the
`Close` column of `ticker.history(period="1d")` in order, so the current price
is its last element; `infoPreviousClose` is `info.get('previousClose')`, which
defaults to the current price when absent (line 42).  The division guard
`if previous_close` of line 46 is Python float truthiness, i.e. `≠ 0`. -/
def quoteBody (symbol : String) (histClose : List ℚ) (infoPreviousClose : Option ℚ) :
    Except String Quote :=
  match histClose.getLast? with
  | none => .error ("No data available for symbol: " ++ symbol)
  | some current_price =>
    let previous_close := infoPreviousClose.getD current_price
    let change := current_price - previous_close
    let change_percent := if previous_close ≠ 0 then (change / previous_close) * 100 else 0
    .ok { symbol := pyUpper symbol
          price := current_price
          change := change
          changePercent := change_percent
          previousClose := previous_close }

/-! ## Exception wrapping and route error mapping
(`yfinance_service.py` lines 61-63, 106-108, 214-216, 266-268;
`routes/stocks.py` lines 39-42, 66-69; `routes/options.py` lines 80-83,
119-122) -/

/-- A Python exception as the route handlers see it: either a `ValueError` or
any other exception, each carrying `str(e)`. -/
inductive PyError where
  | valueError (msg : String)
  | otherError (msg : String)
deriving Repr, DecidableEq

/-- The `except Exception as e: raise ValueError(intro + str(e))` wrapper that
closes every service method: any exception raised by the body — the internal
`ValueError`s as well as any provider/network exception — is re-raised as a
`ValueError` whose message is the method's wrap text followed by the original
message. -/
def serviceWrap {α : Type} (intro : String) (body : Except String α) : Except PyError α :=
  match body with
  | .ok a => .ok a
  | .error m => .error (.valueError (intro ++ m))

/-- An HTTP error response raised via `HTTPException(status_code, detail)`. -/
structure HttpErrorResponse where
  status : Nat
  detail : String
deriving Repr, DecidableEq

/-- The error mapping shared by the quote, expiries, chain and volatility
handlers: `except ValueError as e: 404 with str(e)`;
`except Exception as e: 500 with "Internal server error: " + str(e)`. -/
def routeWrap {α : Type} (r : Except PyError α) : Except HttpErrorResponse α :=
  match r with
  | .ok a => .ok a
  | .error (.valueError m) => .error { status := 404, detail := m }
  | .error (.otherError m) => .error { status := 500, detail := "Internal server error: " ++ m }

/-- `get_stock_quote` (lines 17-63) with the provider outcome explicit: the
provider either yields the 1-day close history and the `info` previousClose,
or fails with some exception message (network error, bad symbol, ...). -/
def get_stock_quote (symbol : String) (provider : Except String (List ℚ × Option ℚ)) :
    Except PyError Quote :=
  serviceWrap ("Failed to fetch data for " ++ symbol ++ ": ")
    (match provider with
     | .error m => .error m
     | .ok (histClose, prevClose) => quoteBody symbol histClose prevClose)

/-- The `/api/stocks/{symbol}/quote` handler (`routes/stocks.py` lines 21-42),
reduced to its error translation (the success envelope carries the data
through unchanged). -/
def quoteRoute (symbol : String) (provider : Except String (List ℚ × Option ℚ)) :
    Except HttpErrorResponse Quote :=
  routeWrap (get_stock_quote symbol provider)

/-! ## Options chain (`get_options_chain`, lines 110-216) -/

/-- One raw row of the provider's calls/puts dataframe, with the fields the
code reads (`row['strike']`, `row['lastPrice']`, and the `row.get(key, 0)`
accesses; a missing bid/ask/volume/openInterest/impliedVolatility arrives here
already defaulted to 0, as `row.get` does). -/
structure RawOptionRow where
  contractSymbol : String
  strike : ℚ
  lastPrice : ℚ
  bid : ℚ
  ask : ℚ
  volume : Int
  openInterest : Int
  impliedVolatility : ℚ
deriving Repr, DecidableEq

/-- One processed option contract (lines 173-195; the five Greeks are the
constant `None` and the timestamp a clock read, so neither is carried). -/
structure OptionContract where
  symbol : String
  underlying : String
  strikePrice : ℚ
  expiryDate : String
  optionType : String
  bid : ℚ
  ask : ℚ
  lastPrice : ℚ
  mark : ℚ
  volume : Int
  openInterest : Int
  impliedVolatility : ℚ
  inTheMoney : Bool
  intrinsicValue : ℚ
  extrinsicValue : ℚ
deriving Repr, DecidableEq

/-- The per-row body of `process_options` (lines 160-195). -/
def processOption (symbol expiryDate : String) (underlying_price : ℚ) (option_type : String)
    (row : RawOptionRow) : OptionContract :=
  let strike := row.strike
  let last_price := row.lastPrice
  let intrinsic :=
    if option_type = "call" then max 0 (underlying_price - strike)
    else max 0 (strike - underlying_price)
  let extrinsic := max 0 (last_price - intrinsic)
  { symbol := row.contractSymbol
    underlying := pyUpper symbol
    strikePrice := strike
    expiryDate := expiryDate
    optionType := option_type
    bid := row.bid
    ask := row.ask
    lastPrice := last_price
    mark := (row.bid + row.ask) / 2
    volume := row.volume
    openInterest := row.openInterest
    impliedVolatility := row.impliedVolatility
    inTheMoney := decide (intrinsic > 0)
    intrinsicValue := intrinsic
    extrinsicValue := extrinsic }

/-- `process_options(df, option_type)` (lines 158-196). -/
def process_options (symbol expiryDate : String) (underlying_price : ℚ) (df : List RawOptionRow)
    (option_type : String) : List OptionContract :=
  df.map (processOption symbol expiryDate underlying_price option_type)

/-- The strike-range filtering of lines 148-155: the `>= min_strike` filter,
then the `<= max_strike` filter, each applied only when the bound was given. -/
def filterStrikes (min_strike max_strike : Option ℚ) (df : List RawOptionRow) :
    List RawOptionRow :=
  let df :=
    match min_strike with
    | some m => df.filter fun r => decide (r.strike ≥ m)
    | none => df
  match max_strike with
  | some m => df.filter fun r => decide (r.strike ≤ m)
  | none => df

/-- Insert into a strictly-increasing list, dropping the element when already
present.  Folding it over a list yields exactly Python's
`sorted(list(set(l)))`: the distinct elements in increasing order. -/
def insertSortedU (x : ℚ) : List ℚ → List ℚ
  | [] => [x]
  | y :: ys => if x < y then x :: y :: ys else if x = y then y :: ys else y :: insertSortedU x ys

/-- `sorted(list(set(l)))` of line 202. -/
def sortedUnique (l : List ℚ) : List ℚ := l.foldr insertSortedU []

/-- The chain payload of lines 204-212 (timestamp omitted). -/
structure OptionsChain where
  underlying : String
  underlyingPrice : ℚ
  expiryDates : List String
  strikes : List ℚ
  calls : List OptionContract
  puts : List OptionContract
deriving Repr, DecidableEq

/-- The `try`-body of `get_options_chain` (lines 129-212).  `expiryDates` is
`ticker.options`, `requestedExpiry` the `expiry_date` argument, `chainCalls` /
`chainPuts` the rows of `ticker.option_chain(expiry_date)`, and `histClose`
the 1-day close history (line 146 sets the underlying price to 0 when it is
empty). -/
def chainBody (symbol : String) (expiryDates : List String) (requestedExpiry : Option String)
    (chainCalls chainPuts : List RawOptionRow) (histClose : List ℚ)
    (min_strike max_strike : Option ℚ) : Except String OptionsChain :=
  let expiryChoice : Except String String :=
    match requestedExpiry with
    | some e => .ok e
    | none =>
      match expiryDates with
      | [] => .error ("No options available for " ++ symbol)
      | e :: _ => .ok e
  match expiryChoice with
  | .error m => .error m
  | .ok expiry_date =>
    let underlying_price :=
      match histClose.getLast? with
      | some c => c
      | none => 0
    let calls_df := filterStrikes min_strike max_strike chainCalls
    let puts_df := filterStrikes min_strike max_strike chainPuts
    let calls := process_options symbol expiry_date underlying_price calls_df "call"
    let puts := process_options symbol expiry_date underlying_price puts_df "put"
    let strikes := sortedUnique (calls.map fun c => c.strikePrice)
    .ok { underlying := pyUpper symbol
          underlyingPrice := underlying_price
          expiryDates := expiryDates
          strikes := strikes
          calls := calls
          puts := puts }

/-- `get_options_chain` with its closing `ValueError` wrapper (lines 214-216). -/
def get_options_chain (symbol : String) (expiryDates : List String)
    (requestedExpiry : Option String) (chainCalls chainPuts : List RawOptionRow)
    (histClose : List ℚ) (min_strike max_strike : Option ℚ) : Except PyError OptionsChain :=
  serviceWrap "Failed to fetch options chain: "
    (chainBody symbol expiryDates requestedExpiry chainCalls chainPuts histClose
      min_strike max_strike)

/-! ## Volatility (`get_volatility`, lines 218-268) -/

/-- The payload of lines 257-264 (timestamp omitted). -/
structure VolatilitySnapshot where
  symbol : String
  impliedVolatility : ℚ
  historicalVolatility : ℚ
  ivRank : ℚ
  ivPercentile : ℚ
deriving Repr, DecidableEq

/-- The `try`-body of `get_volatility` (lines 230-264).  `histClose` is the
lookback-window close history; the annualized standard deviation `hv` of its
daily returns (lines 240-241, an irrational real computed by pandas) enters as
a parameter, as does the ATM implied volatility `ivChain` when the inner
option-chain lookup of lines 244-252 succeeds (`none` models its bare
`except`, which falls back to `hv`).  Line 236 checks
`hist.empty or len(hist) < 2`; Python raises `ZeroDivisionError` at line 255
when `hv = 0`. -/
def volatilityBody (symbol : String) (histClose : List ℚ) (hv : ℚ) (ivChain : Option ℚ) :
    Except String VolatilitySnapshot :=
  if histClose.isEmpty || decide (histClose.length < 2) then
    .error "Insufficient data for volatility calculation"
  else
    let iv := ivChain.getD hv
    if hv = 0 then .error "float division by zero"
    else
      let iv_rank := min 100 (max 0 ((iv / hv) * 50))
      .ok { symbol := pyUpper symbol
            impliedVolatility := iv
            historicalVolatility := hv
            ivRank := iv_rank
            ivPercentile := iv_rank }

/-- `get_volatility` with its closing `ValueError` wrapper (lines 266-268). -/
def get_volatility (symbol : String) (histClose : List ℚ) (hv : ℚ) (ivChain : Option ℚ) :
    Except PyError VolatilitySnapshot :=
  serviceWrap "Failed to calculate volatility: " (volatilityBody symbol histClose hv ivChain)

/-! ## Symbol search (`search_symbols`, lines 270-327) -/

/-- A `ticker.info` dict as the code inspects it: `symbolKey` is
`some v` when the key `'symbol'` is present (with `v = some s` when its value
is the non-`None` string `s`), `none` when the dict is empty/has no such key;
`longName` is `info.get('longName')`. -/
structure TickerInfo where
  symbolKey : Option (Option String)
  longName : Option String
deriving Repr, DecidableEq

/-- A search hit (lines 309-312). -/
structure SearchResult where
  symbol : String
  name : String
deriving Repr, DecidableEq

/-- The static `common_symbols` table of lines 286-302. -/
def common_symbols : List (String × String) :=
  [("AAPL", "Apple Inc."),
   ("MSFT", "Microsoft Corporation"),
   ("GOOGL", "Alphabet Inc."),
   ("AMZN", "Amazon.com Inc."),
   ("META", "Meta Platforms Inc."),
   ("TSLA", "Tesla Inc."),
   ("NVDA", "NVIDIA Corporation"),
   ("SPY", "SPDR S&P 500 ETF Trust"),
   ("QQQ", "Invesco QQQ Trust"),
   ("AMD", "Advanced Micro Devices Inc."),
   ("NFLX", "Netflix Inc."),
   ("DIS", "The Walt Disney Company"),
   ("BA", "The Boeing Company"),
   ("JPM", "JPMorgan Chase & Co."),
   ("V", "Visa Inc.")]

/-- Python's substring test `needle in haystack`. -/
def strContains (needle haystack : String) : Bool :=
  decide (needle.data <:+: haystack.data)

/-- The static-table pass of lines 304-312:
`query_upper in symbol or query_upper.lower() in name.lower()`. -/
def staticMatches (query : String) : List SearchResult :=
  let query_upper := pyUpper query
  common_symbols.filterMap fun p =>
    if strContains query_upper p.1 || strContains (pyLower query_upper) (pyLower p.2) then
      some { symbol := p.1, name := p.2 }
    else none

/-- `search_symbols` (lines 272-327).  `live` is the outcome of the fallback
`yf.Ticker(query.upper()).info` lookup of lines 316-325: `none` when it threw
(the bare `except: pass`); the appended entry requires `info` truthy with a
`'symbol'` key (line 319). -/
def search_symbols (query : String) (live : Option TickerInfo) : List SearchResult :=
  let results := staticMatches query
  let results :=
    if results.isEmpty && decide (query.length ≤ 5) then
      match live with
      | some info =>
        if info.symbolKey.isSome then
          [{ symbol := pyUpper query, name := info.longName.getD (pyUpper query) }]
        else []
      | none => []
    else results
  results.take 10

/-! ## Symbol validation (`validate_symbol`, lines 329-366) -/

/-- The payload of lines 354-358. -/
structure ValidationResult where
  valid : Bool
  optionable : Bool
  name : String
deriving Repr, DecidableEq

/-- `validate_symbol` (lines 340-366).  `infoResult` is the outcome of
`ticker.info` (its failure is caught by the outer `except` of lines 360-366),
`optionsResult` that of `ticker.options` (its failure is caught by the inner
`except` of lines 351-352).  Line 345: valid iff the `'symbol'` key is present
with a non-`None` value. -/
def validate_symbol (symbol : String) (infoResult : Except String TickerInfo)
    (optionsResult : Except String (List String)) : ValidationResult :=
  match infoResult with
  | .error _ => { valid := false, optionable := false, name := "" }
  | .ok info =>
    let valid : Bool :=
      match info.symbolKey with
      | some (some _) => true
      | _ => false
    let optionable : Bool :=
      match optionsResult with
      | .ok options => decide (options.length > 0)
      | .error _ => false
    { valid := valid
      optionable := optionable
      name := if valid then info.longName.getD (pyUpper symbol) else "" }

/-! ## Concrete sample data (used to evaluate the embedded functions) -/

/-- The quote produced from a 150 close against a 148 previous close. -/
def demoQuote : Quote :=
  { symbol := "AAPL", price := 150, change := 2, changePercent := 50 / 37, previousClose := 148 }

/-- A raw call row: strike 100, last 7, bid 6, ask 8. -/
def demoCallRow : RawOptionRow :=
  { contractSymbol := "AAPL250117C00100000", strike := 100, lastPrice := 7, bid := 6, ask := 8,
    volume := 10, openInterest := 20, impliedVolatility := 3 }

/-- A raw put row: strike 95, last 3, bid 2, ask 4. -/
def demoPutRow : RawOptionRow :=
  { contractSymbol := "AAPL250117P00095000", strike := 95, lastPrice := 3, bid := 2, ask := 4,
    volume := 5, openInterest := 15, impliedVolatility := 2 }

/-- `processOption` of `demoCallRow` at underlying price 105. -/
def demoCall : OptionContract :=
  { symbol := "AAPL250117C00100000", underlying := "AAPL", strikePrice := 100,
    expiryDate := "2025-01-17", optionType := "call", bid := 6, ask := 8, lastPrice := 7,
    mark := 7, volume := 10, openInterest := 20, impliedVolatility := 3,
    inTheMoney := true, intrinsicValue := 5, extrinsicValue := 2 }

/-- The chain built from `demoCallRow` alone at underlying price 105. -/
def demoChain : OptionsChain :=
  { underlying := "AAPL", underlyingPrice := 105, expiryDates := ["2025-01-17"],
    strikes := [100], calls := [demoCall], puts := [] }

/-- `processOption` of `demoCallRow` at underlying price 0 (empty history). -/
def demoCall0 : OptionContract :=
  { symbol := "AAPL250117C00100000", underlying := "AAPL", strikePrice := 100,
    expiryDate := "2025-01-17", optionType := "call", bid := 6, ask := 8, lastPrice := 7,
    mark := 7, volume := 10, openInterest := 20, impliedVolatility := 3,
    inTheMoney := false, intrinsicValue := 0, extrinsicValue := 7 }

/-- `processOption` of `demoPutRow` at underlying price 0 (empty history). -/
def demoPut0 : OptionContract :=
  { symbol := "AAPL250117P00095000", underlying := "AAPL", strikePrice := 95,
    expiryDate := "2025-01-17", optionType := "put", bid := 2, ask := 4, lastPrice := 3,
    mark := 3, volume := 5, openInterest := 15, impliedVolatility := 2,
    inTheMoney := true, intrinsicValue := 95, extrinsicValue := 0 }

/-- The chain built from `demoCallRow` and `demoPutRow` with an empty 1-day
history (underlying price 0). -/
def demoChain0 : OptionsChain :=
  { underlying := "AAPL", underlyingPrice := 0, expiryDates := ["2025-01-17"],
    strikes := [100], calls := [demoCall0], puts := [demoPut0] }

/-- The volatility snapshot for hv = 2 with ATM implied volatility 20. -/
def demoSnapshot : VolatilitySnapshot :=
  { symbol := "AAPL", impliedVolatility := 20, historicalVolatility := 2,
    ivRank := 100, ivPercentile := 100 }

/-! ## Supporting lemmas -/

theorem mem_insertSortedU (x a : ℚ) (l : List ℚ) :
    a ∈ insertSortedU x l ↔ a = x ∨ a ∈ l := by
  induction l with
  | nil => simp [insertSortedU]
  | cons y ys ih =>
    simp only [insertSortedU]
    split
    · simp [List.mem_cons]
    · split
      · rename_i hlt heq
        subst heq
        simp [List.mem_cons]
      · simp [List.mem_cons, ih]
        tauto

theorem sorted_insertSortedU (x : ℚ) (l : List ℚ) (h : l.Sorted (· < ·)) :
    (insertSortedU x l).Sorted (· < ·) := by
  induction l with
  | nil => simp [insertSortedU]
  | cons y ys ih =>
    rw [List.sorted_cons] at h
    obtain ⟨hy, hys⟩ := h
    simp only [insertSortedU]
    split
    · rename_i hxy
      refine List.sorted_cons.mpr ⟨?_, List.sorted_cons.mpr ⟨hy, hys⟩⟩
      intro b hb
      rcases List.mem_cons.mp hb with rfl | hbys
      · exact hxy
      · exact hxy.trans (hy b hbys)
    · split
      · exact List.sorted_cons.mpr ⟨hy, hys⟩
      · rename_i hxy hxeq
        have hyx : y < x := lt_of_le_of_ne (not_lt.mp hxy) (fun e => hxeq e.symm)
        refine List.sorted_cons.mpr ⟨?_, ih hys⟩
        intro b hb
        rcases (mem_insertSortedU x b ys).mp hb with rfl | hbys
        · exact hyx
        · exact hy b hbys

theorem sorted_sortedUnique (l : List ℚ) : (sortedUnique l).Sorted (· < ·) := by
  induction l with
  | nil => simp [sortedUnique]
  | cons a l ih => exact sorted_insertSortedU a _ ih

theorem mem_sortedUnique (a : ℚ) (l : List ℚ) : a ∈ sortedUnique l ↔ a ∈ l := by
  induction l with
  | nil => simp [sortedUnique]
  | cons b l ih =>
    show a ∈ insertSortedU b (sortedUnique l) ↔ _
    rw [mem_insertSortedU, ih]
    simp [List.mem_cons]

theorem nodup_sortedUnique (l : List ℚ) : (sortedUnique l).Nodup :=
  (sorted_sortedUnique l).nodup

/-- A row survives the strike filtering of lines 148-155 exactly when its
strike meets each supplied bound inclusively. -/
theorem mem_filterStrikes (min_strike max_strike : Option ℚ) (df : List RawOptionRow)
    (r : RawOptionRow) :
    r ∈ filterStrikes min_strike max_strike df ↔
      r ∈ df ∧ (∀ m, min_strike = some m → m ≤ r.strike) ∧
        (∀ M, max_strike = some M → r.strike ≤ M) := by
  unfold filterStrikes
  cases min_strike <;> cases max_strike <;>
    (simp [List.mem_filter, ge_iff_le]; try tauto)

/-! ## Claim C1 — expiry classification -/

/-- C1 counterexample: for the expiry dated the 18th of a month more than a
year out (day-of-month 18 ∈ [15,21], daysUntilExpiry = 600 > 365) the
classifier emits type "leaps", not "monthly", and emits isStandard = true even
though the assigned type is not monthly — so the claim's rules "day-of-month
∈ [15,21] ⇒ type = monthly" and "isStandard ⇔ type = monthly" are both false
on this input. -/
theorem classifyExpiry_claim_false :
    ¬ (((15 ≤ 18 ∧ 18 ≤ 21) → (classifyExpiry "2027-06-18" 18 600).type = "monthly") ∧
       ((classifyExpiry "2027-06-18" 18 600).isStandard = true ↔
         (classifyExpiry "2027-06-18" 18 600).type = "monthly")) := by
  decide

/-- C1 (amended): the classifier gives "leaps" precedence — type = leaps when
daysUntilExpiry > 365; otherwise monthly when the day-of-month is in [15,21];
otherwise weekly; quarterly is never assigned; and isStandard is true iff the
day-of-month is in [15,21] (regardless of the assigned type). -/
theorem classifyExpiry_spec (dateStr : String) (day : Nat) (daysUntil : Int) :
    (daysUntil > 365 → (classifyExpiry dateStr day daysUntil).type = "leaps") ∧
    (daysUntil ≤ 365 → 15 ≤ day → day ≤ 21 →
      (classifyExpiry dateStr day daysUntil).type = "monthly") ∧
    (daysUntil ≤ 365 → ¬(15 ≤ day ∧ day ≤ 21) →
      (classifyExpiry dateStr day daysUntil).type = "weekly") ∧
    (classifyExpiry dateStr day daysUntil).type ≠ "quarterly" ∧
    ((classifyExpiry dateStr day daysUntil).isStandard = true ↔ 15 ≤ day ∧ day ≤ 21) ∧
    (classifyExpiry dateStr day daysUntil).daysUntilExpiry = daysUntil ∧
    (classifyExpiry dateStr day daysUntil).date = dateStr := by
  refine ⟨?_, ?_, ?_, ?_, ?_, rfl, rfl⟩
  · intro h1
    simp [classifyExpiry, h1]
  · intro h1 h2 h3
    simp [classifyExpiry, h2, h3, not_lt.mpr h1]
  · intro h1 h2
    by_cases h15 : 15 ≤ day
    · have h21 : ¬ day ≤ 21 := fun hh => h2 ⟨h15, hh⟩
      simp [classifyExpiry, not_lt.mpr h1, h15, h21]
    · simp [classifyExpiry, not_lt.mpr h1, h15]
  · simp only [classifyExpiry]
    split
    · decide
    · split
      · decide
      · decide
  · simp [classifyExpiry]

/-- Witness for C1: the expiry dated the 21st, 40 days out, is classified
monthly and standard. -/
theorem classifyExpiry_spec_witness :
    (classifyExpiry "2025-11-21" 21 40).type = "monthly" ∧
    (classifyExpiry "2025-11-21" 21 40).isStandard = true := by
  have h := classifyExpiry_spec "2025-11-21" 21 40
  exact ⟨h.2.1 (by decide) (by decide) (by decide), h.2.2.2.2.1.mpr (by decide)⟩

/-! ## Claim C5 — percent change -/

/-- C5: every quote built from a nonempty history has
change = price − previousClose; changePercent = 100 × (price − previousClose)
/ previousClose when previousClose ≠ 0, and changePercent = 0 when
previousClose = 0 (no division-by-zero failure: the result is still
`Except.ok`). -/
theorem quote_changePercent_spec (symbol : String) (histClose : List ℚ)
    (prevOpt : Option ℚ) (q : Quote)
    (h : quoteBody symbol histClose prevOpt = .ok q) :
    q.change = q.price - q.previousClose ∧
    (q.previousClose ≠ 0 →
      q.changePercent = 100 * (q.price - q.previousClose) / q.previousClose) ∧
    (q.previousClose = 0 → q.changePercent = 0) := by
  unfold quoteBody at h
  cases hL : histClose.getLast? with
  | none => rw [hL] at h; cases h
  | some current =>
    rw [hL] at h
    simp only [Except.ok.injEq] at h
    subst h
    refine ⟨rfl, fun hne => ?_, fun hz => ?_⟩
    · show (if prevOpt.getD current ≠ 0
          then (current - prevOpt.getD current) / prevOpt.getD current * 100 else 0) =
        100 * (current - prevOpt.getD current) / prevOpt.getD current
      rw [if_pos hne]
      ring
    · show (if prevOpt.getD current ≠ 0
          then (current - prevOpt.getD current) / prevOpt.getD current * 100 else 0) = 0
      rw [if_neg (fun hcon => hcon hz)]

/-- Witness for C5: price 150 against previousClose 148 gives
changePercent = 100 × 2 / 148 = 50/37. -/
theorem quote_changePercent_spec_witness :
    (50 : ℚ) / 37 = 100 * ((150 : ℚ) - 148) / 148 ∧
    demoQuote.previousClose ≠ 0 ∧
    demoQuote.changePercent = 100 * (demoQuote.price - demoQuote.previousClose) /
      demoQuote.previousClose := by
  have h := quote_changePercent_spec "AAPL" [150] (some 148) demoQuote
    (by simp [quoteBody, pyUpper, demoQuote]; norm_num)
  exact ⟨by norm_num, by norm_num [demoQuote], h.2.1 (by norm_num [demoQuote])⟩

/-! ## Claim C2 — HTTP error mapping -/

/-- C2 counterexample: a provider-side network failure ("any other failure" in
the claim's taxonomy, i.e. a ProviderError) is wrapped into a `ValueError` by
the service and therefore returned as HTTP 404 — not as the HTTP 500 the claim
requires for it. -/
theorem quoteRoute_networkError_is_404 :
    quoteRoute "AAPL" (.error "ConnectionError: connection timed out") =
      .error { status := 404,
               detail := "Failed to fetch data for AAPL: ConnectionError: connection timed out" } ∧
    (404 : Nat) ≠ 500 := by
  exact ⟨by decide, by decide⟩

/-- C2 (amended): every failure of a service call — the typed "data
unavailable" conditions and provider/network failures alike — reaches the
route handler as a `ValueError` (the service's closing `except` wraps every
exception) and is returned as HTTP 404 whose detail is the wrapped message;
an HTTP 500 with the generic message could only arise from a non-`ValueError`
exception, which the service layer never produces. -/
theorem route_error_mapping {α : Type} (intro : String) (body : Except String α)
    (symbol : String) (provider : Except String (List ℚ × Option ℚ)) :
    (∀ e, routeWrap (serviceWrap intro body) = .error e →
      e.status = 404 ∧ ∃ m, body = .error m ∧ e.detail = intro ++ m) ∧
    (∀ e, quoteRoute symbol provider = .error e → e.status = 404) ∧
    (∀ m, provider = .error m →
      quoteRoute symbol provider =
        .error { status := 404,
                 detail := "Failed to fetch data for " ++ symbol ++ ": " ++ m }) := by
  have key : ∀ {β : Type} (i : String) (b : Except String β) (e : HttpErrorResponse),
      routeWrap (serviceWrap i b) = .error e →
        e.status = 404 ∧ ∃ m, b = .error m ∧ e.detail = i ++ m := by
    intro β i b e he
    cases b with
    | ok a => cases he
    | error m =>
      simp only [serviceWrap, routeWrap, Except.error.injEq] at he
      subst he
      exact ⟨rfl, m, rfl, rfl⟩
  refine ⟨key intro body, fun e he => (key _ _ e he).1, fun m hm => ?_⟩
  subst hm
  rfl

/-- Witness for C2 (amended): the wrapped network failure of the
counterexample indeed carries status 404. -/
theorem route_error_mapping_witness :
    HttpErrorResponse.status
      { status := 404,
        detail := "Failed to fetch data for AAPL: ConnectionError: connection timed out" } = 404 := by
  have h := (route_error_mapping "Failed to fetch data for AAPL: "
    (.error "ConnectionError: connection timed out" : Except String Quote)
    "AAPL" (.error "ConnectionError: connection timed out")).2.1
  exact h _ (by decide)

/-! ## Claim C3 — per-contract derived values -/

theorem processOption_call (symbol e : String) (p : ℚ) (row : RawOptionRow) :
    processOption symbol e p "call" row =
      { symbol := row.contractSymbol, underlying := pyUpper symbol, strikePrice := row.strike,
        expiryDate := e, optionType := "call", bid := row.bid, ask := row.ask,
        lastPrice := row.lastPrice, mark := (row.bid + row.ask) / 2, volume := row.volume,
        openInterest := row.openInterest, impliedVolatility := row.impliedVolatility,
        inTheMoney := decide (max 0 (p - row.strike) > 0),
        intrinsicValue := max 0 (p - row.strike),
        extrinsicValue := max 0 (row.lastPrice - max 0 (p - row.strike)) } := by
  simp [processOption]

theorem processOption_put (symbol e : String) (p : ℚ) (row : RawOptionRow) :
    processOption symbol e p "put" row =
      { symbol := row.contractSymbol, underlying := pyUpper symbol, strikePrice := row.strike,
        expiryDate := e, optionType := "put", bid := row.bid, ask := row.ask,
        lastPrice := row.lastPrice, mark := (row.bid + row.ask) / 2, volume := row.volume,
        openInterest := row.openInterest, impliedVolatility := row.impliedVolatility,
        inTheMoney := decide (max 0 (row.strike - p) > 0),
        intrinsicValue := max 0 (row.strike - p),
        extrinsicValue := max 0 (row.lastPrice - max 0 (row.strike - p)) } := by
  have hne : ¬ ("put" = "call") := by decide
  simp [processOption, hne]

/-- Inversion for a successful `chainBody` run: the returned chain is built
from the filtered rows at the underlying price taken from the (possibly
empty) history, for the chosen expiry date. -/
theorem chainBody_ok (symbol : String) (expiryDates : List String)
    (requestedExpiry : Option String) (chainCalls chainPuts : List RawOptionRow)
    (histClose : List ℚ) (min_strike max_strike : Option ℚ) (ch : OptionsChain)
    (h : chainBody symbol expiryDates requestedExpiry chainCalls chainPuts histClose
        min_strike max_strike = .ok ch) :
    ∃ expiry_date,
      ch = { underlying := pyUpper symbol,
             underlyingPrice := histClose.getLast?.getD 0,
             expiryDates := expiryDates,
             strikes := sortedUnique ((process_options symbol expiry_date
                 (histClose.getLast?.getD 0)
                 (filterStrikes min_strike max_strike chainCalls) "call").map
               fun c => c.strikePrice),
             calls := process_options symbol expiry_date (histClose.getLast?.getD 0)
               (filterStrikes min_strike max_strike chainCalls) "call",
             puts := process_options symbol expiry_date (histClose.getLast?.getD 0)
               (filterStrikes min_strike max_strike chainPuts) "put" } := by
  cases requestedExpiry with
  | some e =>
    unfold chainBody at h
    simp only [Except.ok.injEq] at h
    refine ⟨e, ?_⟩
    rw [← h]
    cases hL : histClose.getLast? <;> rfl
  | none =>
    cases expiryDates with
    | nil => unfold chainBody at h; cases h
    | cons e rest =>
      unfold chainBody at h
      simp only [Except.ok.injEq] at h
      refine ⟨e, ?_⟩
      rw [← h]
      cases hL : histClose.getLast? <;> rfl

/-- C3: every call contract of a built chain has
intrinsicValue = max(0, underlyingPrice − strike) and every put contract has
intrinsicValue = max(0, strike − underlyingPrice); for all contracts
extrinsicValue = max(0, lastPrice − intrinsicValue), both derived values are
nonnegative, inTheMoney holds iff intrinsicValue > 0, and
mark = (bid + ask) / 2. -/
theorem chain_contract_invariants (symbol : String) (expiryDates : List String)
    (requestedExpiry : Option String) (chainCalls chainPuts : List RawOptionRow)
    (histClose : List ℚ) (min_strike max_strike : Option ℚ) (ch : OptionsChain)
    (h : chainBody symbol expiryDates requestedExpiry chainCalls chainPuts histClose
        min_strike max_strike = .ok ch) :
    (∀ c ∈ ch.calls,
      c.intrinsicValue = max 0 (ch.underlyingPrice - c.strikePrice) ∧
      c.extrinsicValue = max 0 (c.lastPrice - c.intrinsicValue) ∧
      0 ≤ c.intrinsicValue ∧ 0 ≤ c.extrinsicValue ∧
      (c.inTheMoney = true ↔ 0 < c.intrinsicValue) ∧
      c.mark = (c.bid + c.ask) / 2) ∧
    (∀ c ∈ ch.puts,
      c.intrinsicValue = max 0 (c.strikePrice - ch.underlyingPrice) ∧
      c.extrinsicValue = max 0 (c.lastPrice - c.intrinsicValue) ∧
      0 ≤ c.intrinsicValue ∧ 0 ≤ c.extrinsicValue ∧
      (c.inTheMoney = true ↔ 0 < c.intrinsicValue) ∧
      c.mark = (c.bid + c.ask) / 2) := by
  obtain ⟨e, rfl⟩ := chainBody_ok symbol expiryDates requestedExpiry chainCalls chainPuts
    histClose min_strike max_strike ch h
  constructor
  · intro c hc
    dsimp only at hc ⊢
    obtain ⟨row, hrow, rfl⟩ := List.mem_map.mp hc
    rw [processOption_call]
    refine ⟨rfl, rfl, le_max_left _ _, le_max_left _ _, ?_, rfl⟩
    simp [gt_iff_lt]
  · intro c hc
    dsimp only at hc ⊢
    obtain ⟨row, hrow, rfl⟩ := List.mem_map.mp hc
    rw [processOption_put]
    refine ⟨rfl, rfl, le_max_left _ _, le_max_left _ _, ?_, rfl⟩
    simp [gt_iff_lt]

/-- The demo call row at underlying 105 indeed builds `demoChain`. -/
theorem demoChain_eval :
    chainBody "AAPL" ["2025-01-17"] (some "2025-01-17") [demoCallRow] [] [105] none none =
      .ok demoChain := by
  simp [chainBody, filterStrikes, process_options, processOption, sortedUnique,
    insertSortedU, pyUpper, demoCallRow, demoChain, demoCall]
  norm_num

/-- Witness for C3: the call with strike 100 and last 7 at underlying 105 has
intrinsic 5, extrinsic 2, is in the money, and marks at 7 = (6 + 8)/2. -/
theorem chain_contract_invariants_witness :
    demoCall ∈ demoChain.calls ∧
    (demoCall.intrinsicValue = max 0 (demoChain.underlyingPrice - demoCall.strikePrice) ∧
     demoCall.extrinsicValue = max 0 (demoCall.lastPrice - demoCall.intrinsicValue) ∧
     0 ≤ demoCall.intrinsicValue ∧ 0 ≤ demoCall.extrinsicValue ∧
     (demoCall.inTheMoney = true ↔ 0 < demoCall.intrinsicValue) ∧
     demoCall.mark = (demoCall.bid + demoCall.ask) / 2) := by
  have hmem : demoCall ∈ demoChain.calls := by simp [demoChain]
  have h := chain_contract_invariants "AAPL" ["2025-01-17"] (some "2025-01-17")
    [demoCallRow] [] [105] none none demoChain demoChain_eval
  exact ⟨hmem, h.1 demoCall hmem⟩

/-! ## Claim C4 — strike filtering and the strike list -/

/-- C4: a raw row survives the strike filter iff its strike meets the supplied
bounds inclusively; the filter acts on the call and put sets independently
(each retained contract traces back to a row of its own side whose strike is
within bounds, and every in-bounds row of each side is retained); and the
returned strike list is strictly ascending, duplicate-free, and contains
exactly the strikes of the filtered call contracts — puts contribute
nothing to it. -/
theorem chain_strike_filtering (symbol : String) (expiryDates : List String)
    (requestedExpiry : Option String) (chainCalls chainPuts : List RawOptionRow)
    (histClose : List ℚ) (min_strike max_strike : Option ℚ) (ch : OptionsChain)
    (h : chainBody symbol expiryDates requestedExpiry chainCalls chainPuts histClose
        min_strike max_strike = .ok ch) :
    (∀ df r, r ∈ filterStrikes min_strike max_strike df ↔
        r ∈ df ∧ (∀ m, min_strike = some m → m ≤ r.strike) ∧
          (∀ M, max_strike = some M → r.strike ≤ M)) ∧
    (∀ c ∈ ch.calls, ∃ r ∈ chainCalls, c.strikePrice = r.strike ∧
        (∀ m, min_strike = some m → m ≤ r.strike) ∧
        (∀ M, max_strike = some M → r.strike ≤ M)) ∧
    (∀ c ∈ ch.puts, ∃ r ∈ chainPuts, c.strikePrice = r.strike ∧
        (∀ m, min_strike = some m → m ≤ r.strike) ∧
        (∀ M, max_strike = some M → r.strike ≤ M)) ∧
    (∀ r ∈ chainCalls, (∀ m, min_strike = some m → m ≤ r.strike) →
        (∀ M, max_strike = some M → r.strike ≤ M) →
        ∃ c ∈ ch.calls, c.strikePrice = r.strike) ∧
    (∀ r ∈ chainPuts, (∀ m, min_strike = some m → m ≤ r.strike) →
        (∀ M, max_strike = some M → r.strike ≤ M) →
        ∃ c ∈ ch.puts, c.strikePrice = r.strike) ∧
    ch.strikes.Sorted (· < ·) ∧
    ch.strikes.Nodup ∧
    (∀ s, s ∈ ch.strikes ↔ ∃ c ∈ ch.calls, c.strikePrice = s) := by
  obtain ⟨e, rfl⟩ := chainBody_ok symbol expiryDates requestedExpiry chainCalls chainPuts
    histClose min_strike max_strike ch h
  refine ⟨fun df r => mem_filterStrikes min_strike max_strike df r, ?_, ?_, ?_, ?_, ?_, ?_, ?_⟩
  · intro c hc
    dsimp only at hc
    obtain ⟨row, hrow, rfl⟩ := List.mem_map.mp hc
    obtain ⟨hin, hmin, hmax⟩ := (mem_filterStrikes _ _ _ _).mp hrow
    exact ⟨row, hin, rfl, hmin, hmax⟩
  · intro c hc
    dsimp only at hc
    obtain ⟨row, hrow, rfl⟩ := List.mem_map.mp hc
    obtain ⟨hin, hmin, hmax⟩ := (mem_filterStrikes _ _ _ _).mp hrow
    exact ⟨row, hin, rfl, hmin, hmax⟩
  · intro r hin hmin hmax
    refine ⟨processOption symbol e (histClose.getLast?.getD 0) "call" r, ?_, rfl⟩
    exact List.mem_map.mpr ⟨r, (mem_filterStrikes _ _ _ _).mpr ⟨hin, hmin, hmax⟩, rfl⟩
  · intro r hin hmin hmax
    refine ⟨processOption symbol e (histClose.getLast?.getD 0) "put" r, ?_, rfl⟩
    exact List.mem_map.mpr ⟨r, (mem_filterStrikes _ _ _ _).mpr ⟨hin, hmin, hmax⟩, rfl⟩
  · exact sorted_sortedUnique _
  · exact nodup_sortedUnique _
  · intro s
    dsimp only
    rw [mem_sortedUnique, List.mem_map]

/-- Witness for C4: the demo chain's strike list is strictly ascending,
duplicate-free, and contains the lone filtered call strike 100. -/
theorem chain_strike_filtering_witness :
    demoChain.strikes.Sorted (· < ·) ∧ demoChain.strikes.Nodup ∧
    (100 : ℚ) ∈ demoChain.strikes := by
  have h := chain_strike_filtering "AAPL" ["2025-01-17"] (some "2025-01-17")
    [demoCallRow] [] [105] none none demoChain demoChain_eval
  refine ⟨h.2.2.2.2.2.1, h.2.2.2.2.2.2.1, ?_⟩
  exact (h.2.2.2.2.2.2.2 100).mpr ⟨demoCall, by simp [demoChain], by norm_num [demoCall]⟩

/-! ## Claim C6 — ivRank clamping -/

/-- C6: every volatility snapshot the service returns carries
ivRank = clamp(iv / hv × 50, 0, 100) and ivPercentile = ivRank; the value is
always within [0, 100], iv = 0 yields ivRank = 0, and iv = 10 × hv yields
ivRank = 100.  (The `Except.ok` hypothesis in particular entails hv ≠ 0: when
hv = 0 the Python code raises ZeroDivisionError instead of returning a
snapshot.) -/
theorem volatility_ivRank_spec (symbol : String) (histClose : List ℚ) (hv : ℚ)
    (ivChain : Option ℚ) (snap : VolatilitySnapshot)
    (h : volatilityBody symbol histClose hv ivChain = .ok snap) :
    snap.ivRank = min 100 (max 0 ((snap.impliedVolatility / snap.historicalVolatility) * 50)) ∧
    snap.ivPercentile = snap.ivRank ∧
    0 ≤ snap.ivRank ∧ snap.ivRank ≤ 100 ∧
    (snap.impliedVolatility = 0 → snap.ivRank = 0) ∧
    (snap.impliedVolatility = 10 * snap.historicalVolatility → snap.ivRank = 100) := by
  unfold volatilityBody at h
  by_cases hlen : histClose.isEmpty || decide (histClose.length < 2)
  · rw [if_pos hlen] at h; cases h
  · rw [if_neg hlen] at h
    by_cases hhv : hv = 0
    · rw [if_pos hhv] at h; cases h
    · rw [if_neg hhv] at h
      simp only [Except.ok.injEq] at h
      subst h
      refine ⟨rfl, rfl, ?_, min_le_left _ _, fun hiv => ?_, fun hiv => ?_⟩
      · exact le_min (by norm_num) (le_max_left _ _)
      · dsimp only at hiv ⊢
        rw [hiv]
        norm_num
      · dsimp only at hiv ⊢
        rw [hiv, mul_div_assoc, div_self hhv]
        norm_num

/-- Witness for C6: hv = 2 with ATM implied volatility 20 (= 10 × hv) gives
ivRank = ivPercentile = 100. -/
theorem volatility_ivRank_spec_witness :
    demoSnapshot.ivPercentile = demoSnapshot.ivRank ∧
    0 ≤ demoSnapshot.ivRank ∧ demoSnapshot.ivRank ≤ 100 ∧ demoSnapshot.ivRank = 100 := by
  have h := volatility_ivRank_spec "AAPL" [100, 101] 2 (some 20) demoSnapshot
    (by simp [volatilityBody, pyUpper, demoSnapshot]; norm_num)
  exact ⟨h.2.1, h.2.2.1, h.2.2.2.1, h.2.2.2.2.2 (by norm_num [demoSnapshot])⟩

/-! ## Claim C8 — insufficient history -/

/-- C8: the volatility estimator raises its InsufficientHistory condition
exactly when the lookback window contains fewer than 2 price points: an empty
or single-point window raises it, and a window with ≥ 2 points never produces
this error. -/
theorem volatility_insufficient_history (symbol : String) (histClose : List ℚ) (hv : ℚ)
    (ivChain : Option ℚ) :
    volatilityBody symbol histClose hv ivChain =
        .error "Insufficient data for volatility calculation" ↔
      histClose.length < 2 := by
  unfold volatilityBody
  have hcond : (histClose.isEmpty || decide (histClose.length < 2)) = true ↔
      histClose.length < 2 := by
    simp only [Bool.or_eq_true, decide_eq_true_eq, List.isEmpty_iff]
    constructor
    · rintro (hnil | hlt)
      · subst hnil; norm_num
      · exact hlt
    · exact fun hlt => Or.inr hlt
  by_cases hlen : histClose.length < 2
  · rw [if_pos (hcond.mpr hlen)]
    simp [hlen]
  · rw [if_neg (fun hc => hlen (hcond.mp hc))]
    simp only [iff_false_intro hlen, iff_false]
    by_cases hhv : hv = 0
    · rw [if_pos hhv]
      intro hcon
      simp only [Except.error.injEq] at hcon
      exact absurd hcon (by decide)
    · rw [if_neg hhv]
      intro hcon
      cases hcon

/-- Witness for C8: a single-point window raises InsufficientHistory, a
two-point window does not. -/
theorem volatility_insufficient_history_witness :
    volatilityBody "AAPL" [100] 2 none =
      .error "Insufficient data for volatility calculation" ∧
    ¬ (volatilityBody "AAPL" [100, 101] 2 none =
      .error "Insufficient data for volatility calculation") := by
  constructor
  · exact (volatility_insufficient_history "AAPL" [100] 2 none).mpr (by norm_num)
  · intro hcon
    have := (volatility_insufficient_history "AAPL" [100, 101] 2 none).mp hcon
    norm_num at this

/-! ## Claim C7 — symbol validation -/

/-- C7 counterexample: when the info lookup succeeds for a valid symbol but
the options lookup fails (a provider failure), `validate_symbol` returns
{valid: true, optionable: false, name: "Apple Inc."} — not the all-negative
result the claim requires for "any provider failure". -/
theorem validate_symbol_claim_false :
    validate_symbol "AAPL"
        (.ok { symbolKey := some (some "AAPL"), longName := some "Apple Inc." })
        (.error "ConnectionError: connection timed out") =
      { valid := true, optionable := false, name := "Apple Inc." } ∧
    ({ valid := true, optionable := false, name := "Apple Inc." } : ValidationResult) ≠
      { valid := false, optionable := false, name := "" } := by
  exact ⟨by decide, by decide⟩

/-- C7 (amended): validation never propagates an error; a failure of the
*info* lookup yields {valid:false, optionable:false, name:""}; when the info
lookup succeeds, valid holds iff the info carries a non-None 'symbol' value,
optionable holds iff the options lookup succeeded with at least one expiry (a
failed options lookup only forces optionable = false, leaving valid and name
from the info), and name is empty whenever valid is false. -/
theorem validate_symbol_spec (symbol : String) (infoResult : Except String TickerInfo)
    (optionsResult : Except String (List String)) :
    (∀ m, infoResult = .error m →
      validate_symbol symbol infoResult optionsResult =
        { valid := false, optionable := false, name := "" }) ∧
    (∀ info, infoResult = .ok info →
      (((validate_symbol symbol infoResult optionsResult).valid = true) ↔
        ∃ s, info.symbolKey = some (some s)) ∧
      (((validate_symbol symbol infoResult optionsResult).optionable = true) ↔
        ∃ opts, optionsResult = .ok opts ∧ 0 < opts.length)) ∧
    ((validate_symbol symbol infoResult optionsResult).valid = false →
      (validate_symbol symbol infoResult optionsResult).name = "") := by
  cases infoResult with
  | error me =>
    exact ⟨fun m hm => rfl, fun info h => Except.noConfusion h, fun _ => rfl⟩
  | ok info =>
    obtain ⟨sk, ln⟩ := info
    refine ⟨fun m hm => Except.noConfusion hm, fun info2 h => ?_, ?_⟩
    · have h2 : info2 = ⟨sk, ln⟩ := by injection h with hh; exact hh.symm
      subst h2
      constructor
      · rcases sk with _ | (_ | s) <;> simp [validate_symbol]
      · rcases optionsResult with m2 | opts <;> rcases sk with _ | (_ | s) <;>
          simp [validate_symbol]
    · rcases sk with _ | (_ | s) <;> simp [validate_symbol]

/-- Witness for C7 (amended): a failed info lookup yields the all-negative
result. -/
theorem validate_symbol_spec_witness :
    validate_symbol "ZZZZ" (.error "HTTP Error 404") (.error "HTTP Error 404") =
      { valid := false, optionable := false, name := "" } :=
  (validate_symbol_spec "ZZZZ" (.error "HTTP Error 404") (.error "HTTP Error 404")).1
    "HTTP Error 404" rfl

/-! ## Claim C9 — symbol search -/

/-- C9: the static pass returns exactly the table entries whose symbol or
lower-cased name contains the (upper- resp. lower-cased) query as a
substring; when it matches, the result is that list capped at 10; when it
matches nothing, at most one live-lookup result is returned, and none at all
for queries longer than 5 characters; the result never exceeds 10 entries;
and searching "apple" returns exactly [{AAPL, Apple Inc.}]. -/
theorem search_symbols_spec (query : String) (live : Option TickerInfo) :
    (search_symbols query live).length ≤ 10 ∧
    (∀ r, r ∈ staticMatches query ↔ ∃ p ∈ common_symbols,
      r = { symbol := p.1, name := p.2 } ∧
      (strContains (pyUpper query) p.1 ||
        strContains (pyLower (pyUpper query)) (pyLower p.2)) = true) ∧
    (staticMatches query ≠ [] →
      search_symbols query live = (staticMatches query).take 10) ∧
    (staticMatches query = [] → (search_symbols query live).length ≤ 1) ∧
    (staticMatches query = [] → 5 < query.length → search_symbols query live = []) ∧
    search_symbols "apple" live = [{ symbol := "AAPL", name := "Apple Inc." }] := by
  have happle : staticMatches "apple" = [{ symbol := "AAPL", name := "Apple Inc." }] := by
    decide
  refine ⟨?_, ?_, ?_, ?_, ?_, ?_⟩
  · exact List.length_take_le _ _
  · intro r
    simp only [staticMatches, List.mem_filterMap]
    constructor
    · rintro ⟨p, hp, hf⟩
      by_cases hc : (strContains (pyUpper query) p.1 ||
          strContains (pyLower (pyUpper query)) (pyLower p.2)) = true
      · rw [if_pos hc] at hf
        exact ⟨p, hp, (Option.some.inj hf).symm, hc⟩
      · rw [if_neg hc] at hf
        cases hf
    · rintro ⟨p, hp, rfl, hc⟩
      exact ⟨p, hp, by rw [if_pos hc]⟩
  · intro hne
    unfold search_symbols
    have hie : (staticMatches query).isEmpty = false := by
      cases hs : staticMatches query with
      | nil => exact absurd hs hne
      | cons a l => rfl
    simp [hie]
  · intro hempty
    unfold search_symbols
    rw [hempty]
    by_cases hq : query.length ≤ 5
    · cases live with
      | none => simp
      | some info =>
        by_cases hsk : info.symbolKey.isSome <;> simp [hsk, hq]
    · simp [hq]
  · intro hempty hlen
    unfold search_symbols
    rw [hempty]
    simp [Nat.not_le.mpr hlen]
  · unfold search_symbols
    rw [happle]
    simp

/-- Witness for C9: searching "apple" with no live lookup available returns
exactly the Apple entry. -/
theorem search_symbols_spec_witness :
    search_symbols "apple" none = [{ symbol := "AAPL", name := "Apple Inc." }] :=
  (search_symbols_spec "apple" none).2.2.2.2.2

/-! ## Claim C10 — chain building with empty price history -/

/-- C10: with an empty 1-day history the chain builder still succeeds —
unlike the quote builder, which errors on the same condition (last conjunct):
the underlying price becomes 0, every call contract (all provider strikes
being nonnegative) has intrinsicValue = 0 and is not in the money, and every
put contract has intrinsicValue equal to its strike. -/
theorem chain_empty_history (symbol : String) (expiryDates : List String) (e : String)
    (chainCalls chainPuts : List RawOptionRow) (min_strike max_strike : Option ℚ)
    (hcall : ∀ r ∈ chainCalls, 0 ≤ r.strike) (hput : ∀ r ∈ chainPuts, 0 ≤ r.strike) :
    (∀ m, chainBody symbol expiryDates (some e) chainCalls chainPuts [] min_strike
      max_strike ≠ .error m) ∧
    (∀ ch, chainBody symbol expiryDates (some e) chainCalls chainPuts [] min_strike
        max_strike = .ok ch →
      ch.underlyingPrice = 0 ∧
      (∀ c ∈ ch.calls, c.intrinsicValue = 0 ∧ c.inTheMoney = false) ∧
      (∀ c ∈ ch.puts, c.intrinsicValue = c.strikePrice)) ∧
    (∀ prevOpt, quoteBody symbol [] prevOpt =
      .error ("No data available for symbol: " ++ symbol)) := by
  refine ⟨?_, ?_, fun prevOpt => rfl⟩
  · intro m hcon
    simp [chainBody] at hcon
  · intro ch h
    obtain ⟨e2, rfl⟩ := chainBody_ok symbol expiryDates (some e) chainCalls chainPuts
      [] min_strike max_strike ch h
    refine ⟨rfl, ?_, ?_⟩
    · intro c hc
      dsimp only at hc ⊢
      obtain ⟨row, hrow, rfl⟩ := List.mem_map.mp hc
      have hs : 0 ≤ row.strike :=
        hcall row ((mem_filterStrikes _ _ _ _).mp hrow).1
      rw [processOption_call]
      have hmax : max 0 ((0 : ℚ) - row.strike) = 0 := max_eq_left (by linarith)
      refine ⟨hmax, ?_⟩
      have hnot : ¬ (max 0 ((0 : ℚ) - row.strike) > 0) := by rw [hmax]; norm_num
      exact decide_eq_false hnot
    · intro c hc
      dsimp only at hc ⊢
      obtain ⟨row, hrow, rfl⟩ := List.mem_map.mp hc
      have hs : 0 ≤ row.strike :=
        hput row ((mem_filterStrikes _ _ _ _).mp hrow).1
      rw [processOption_put]
      show max 0 (row.strike - 0) = row.strike
      rw [sub_zero]
      exact max_eq_right hs

/-- The demo rows with an empty 1-day history build `demoChain0`. -/
theorem demoChain0_eval :
    chainBody "AAPL" ["2025-01-17"] (some "2025-01-17") [demoCallRow] [demoPutRow] []
        none none = .ok demoChain0 := by
  simp [chainBody, filterStrikes, process_options, processOption, sortedUnique,
    insertSortedU, pyUpper, demoCallRow, demoPutRow, demoChain0, demoCall0, demoPut0]
  norm_num

/-- Witness for C10: with the empty history, the demo call ends with zero
intrinsic value and out of the money while the demo put's intrinsic value is
its strike. -/
theorem chain_empty_history_witness :
    demoChain0.underlyingPrice = 0 ∧
    demoCall0 ∈ demoChain0.calls ∧ demoCall0.intrinsicValue = 0 ∧
    demoCall0.inTheMoney = false ∧
    demoPut0 ∈ demoChain0.puts ∧ demoPut0.intrinsicValue = demoPut0.strikePrice := by
  have h := chain_empty_history "AAPL" ["2025-01-17"] "2025-01-17" [demoCallRow] [demoPutRow]
    none none
    (by intro r hr; simp only [List.mem_singleton] at hr; subst hr; norm_num [demoCallRow])
    (by intro r hr; simp only [List.mem_singleton] at hr; subst hr; norm_num [demoPutRow])
  have h2 := h.2.1 demoChain0 demoChain0_eval
  have hc : demoCall0 ∈ demoChain0.calls := by simp [demoChain0]
  have hp : demoPut0 ∈ demoChain0.puts := by simp [demoChain0]
  exact ⟨h2.1, hc, (h2.2.1 demoCall0 hc).1, (h2.2.1 demoCall0 hc).2, hp,
    h2.2.2 demoPut0 hp⟩

end ProfitCalc
